import Mathlib

/-!
Verification of the DNS consistency auditor (dnsdiag.py).

This file gives a shallow embedding of the core of dnsdiag.py — resolver
selection (test_all_resolvers), retrying name resolution (name2ip), the
fan-out query / consistency-check / baseline-diff stages of test_dns_query —
and proves or refutes the frozen claims about it.

Network interaction (the dnspython calls) is modelled by oracles passed in as
functions: a resolver probe oracle, a per-attempt resolution outcome oracle,
and a per-(record-type, address) query oracle.  Python string comparison
(used by list.sort on address and record strings) is code-point lexicographic;
it is modelled by the order strLeP below.
-/

namespace DnsDiag

/-- Code-point lexicographic comparison of character lists, as Python
compares strings.  True when the first list is less than or equal to the
second. -/
def charsLe : List Char → List Char → Bool
  | [], _ => true
  | _ :: _, [] => false
  | a :: as, b :: bs =>
    if a < b then true
    else if b < a then false
    else charsLe as bs

/-- Python string comparison (code points, lexicographic): a is less than or
equal to b. -/
def strLe (a b : String) : Bool :=
  charsLe a.data b.data

/-- strLe as a proposition, the sort order used throughout. -/
def strLeP (a b : String) : Prop :=
  strLe a b = true

instance : DecidableRel strLeP :=
  fun a b => instDecidableEqBool (strLe a b) true

theorem charsLe_total : ∀ as bs : List Char, charsLe as bs = true ∨ charsLe bs as = true
  | [], _ => Or.inl rfl
  | _ :: _, [] => Or.inr rfl
  | a :: as, b :: bs => by
    rcases lt_trichotomy a b with h | h | h
    · left
      simp [charsLe, h]
    · subst h
      rcases charsLe_total as bs with h2 | h2
      · left
        simp [charsLe, h2]
      · right
        simp [charsLe, h2]
    · right
      simp [charsLe, h]

theorem charsLe_trans :
    ∀ as bs cs : List Char, charsLe as bs = true → charsLe bs cs = true →
      charsLe as cs = true
  | [], _, _, _, _ => rfl
  | _ :: _, [], _, h1, _ => by simp [charsLe] at h1
  | _ :: _, _ :: _, [], _, h2 => by simp [charsLe] at h2
  | a :: as, b :: bs, c :: cs, h1, h2 => by
    simp only [charsLe] at h1 h2 ⊢
    split_ifs at h1 with hab hba
    · split_ifs at h2 with hbc hcb
      · have hac : a < c := lt_trans hab hbc
        simp [hac]
      · have hbc2 : b = c := le_antisymm (not_lt.mp hcb) (not_lt.mp hbc)
        subst hbc2
        simp [hab]
    · have hab2 : a = b := le_antisymm (not_lt.mp hba) (not_lt.mp hab)
      subst hab2
      split_ifs at h2 with hbc hcb
      · simp [hbc]
      · have hac : a = c := le_antisymm (not_lt.mp hcb) (not_lt.mp hbc)
        subst hac
        simp [charsLe_trans as bs cs h1 h2]

theorem charsLe_antisymm :
    ∀ as bs : List Char, charsLe as bs = true → charsLe bs as = true → as = bs
  | [], [], _, _ => rfl
  | [], _ :: _, _, h2 => by simp [charsLe] at h2
  | _ :: _, [], h1, _ => by simp [charsLe] at h1
  | a :: as, b :: bs, h1, h2 => by
    simp only [charsLe] at h1 h2
    split_ifs at h1 with hab hba
    · rw [if_neg (asymm hab), if_pos hab] at h2
      exact absurd h2 (by simp)
    · have hab2 : a = b := le_antisymm (not_lt.mp hba) (not_lt.mp hab)
      subst hab2
      simp only [lt_self_iff_false, if_false] at h2
      rw [charsLe_antisymm as bs h1 h2]

instance : IsTotal String strLeP :=
  ⟨fun a b => charsLe_total a.data b.data⟩

instance : IsTrans String strLeP :=
  ⟨fun a b c => charsLe_trans a.data b.data c.data⟩

instance : IsAntisymm String strLeP :=
  ⟨fun a b h1 h2 => String.ext (charsLe_antisymm a.data b.data h1 h2)⟩

/-- Python list.sort on a list of strings (in-place sort modelled as the
sorted value). -/
def sortStrings (l : List String) : List String :=
  l.insertionSort strLeP

theorem sortStrings_sorted (l : List String) : List.Sorted strLeP (sortStrings l) :=
  List.sorted_insertionSort strLeP l

theorem sortStrings_perm (l : List String) : (sortStrings l).Perm l :=
  List.perm_insertionSort strLeP l

theorem sortStrings_eq_of_perm {l m : List String} (h : l.Perm m) :
    sortStrings l = sortStrings m :=
  List.eq_of_perm_of_sorted
    ((sortStrings_perm l).trans (h.trans (sortStrings_perm m).symm))
    (sortStrings_sorted l) (sortStrings_sorted m)

theorem sortStrings_idem (l : List String) :
    sortStrings (sortStrings l) = sortStrings l :=
  List.eq_of_perm_of_sorted (sortStrings_perm (sortStrings l))
    (sortStrings_sorted (sortStrings l)) (sortStrings_sorted l)

/-! ## Resolver selection (dnsdiag.py, test_all_resolvers, lines 81-102)

The probe (test_resolver) performs network access; it is modelled as an
oracle probe : Resolver → Bool.  test_resolver catches every DNS exception
internally and returns False, so the probe is total. -/

/-- A configured resolver: ip, transport type and DNSSEC flag
(config entries resolvers: list of \x7bip, type, dnssec\x7d). -/
structure Resolver where
  ip : String
  rtype : String
  dnssec : Bool
deriving DecidableEq

/-- A Python for-loop whose body returns the updated state and a Bool that is
true when the body executed a break; iteration stops at the first break. -/
def forEachWithBreak (body : σ → α → σ × Bool) : σ → List α → σ
  | s, [] => s
  | s, x :: xs =>
    let r := body s x
    if r.2 then r.1 else forEachWithBreak body r.1 xs

/-- Loop body of test_all_resolvers (lines 85-93): if the probe succeeds the
resolver is recorded and the loop breaks; otherwise the unconditional break
on line 90 still exits the loop.  The body always breaks. -/
def selectorBody (probe : Resolver → Bool) (tested : Option Resolver) (r : Resolver) :
    Option Resolver × Bool :=
  if probe r then (some r, true) else (tested, true)

/-- test_all_resolvers (lines 81-102): iterate the configured resolvers with
the break-on-first policy, then raise when no resolver was recorded. -/
def test_all_resolvers (probe : Resolver → Bool) (resolvers : List Resolver) :
    Except String Resolver :=
  match forEachWithBreak (selectorBody probe) none resolvers with
  | some r => Except.ok r
  | none => Except.error "No working resolver found"

/-! ## Retrying name resolution (dnsdiag.py, name2ip, lines 104-139)

Each loop iteration issues one query; the outcome of attempt i is given by
an oracle.  An attempt either raises a protocol-level error (DNSException,
caught on line 122), raises some other error (caught on line 127), or
returns a response whose parsed A records are a list of strings. -/

/-- Outcome of one underlying query attempt inside name2ip.  A successful
response carries the parsed A-record texts and whether its EDNS options
list (response.options, checked for truthiness on line 134) is
non-empty. -/
inductive QueryOutcome where
  | protoErr
  | otherErr
  | success (arecords : List String) (optionsNonempty : Bool)
deriving DecidableEq

/-- Result of name2ip.  noRecordFound models the raise on line 137;
unboundLocal models the crash on line 134: when every attempt raised before
a response was assigned and the DNSSEC flag is set, line 134 reads the
never-assigned local variable response; attributeError models the crash on
line 135: response.options is a plain option list without a to_text method,
so printing response.options.to_text() raises whenever that list is
non-empty. -/
inductive Name2ipResult where
  | ok (addrs : List String)
  | noRecordFound
  | unboundLocal
  | attributeError
deriving DecidableEq

/-- The failure path of name2ip after the loop (lines 131-137), reached with
an empty retanswer.  responseBound records whether any attempt got as far as
binding the local variable response; optionsNonempty whether the bound
response carries a non-empty EDNS options list.  With the DNSSEC flag off,
line 137 raises the no-A-record error directly; with it on, line 134 reads
response (crashing when it was never bound), line 135 calls
response.options.to_text() (crashing when the options list is non-empty),
and only then line 137 raises the no-A-record error. -/
def name2ipFail (dnssec : Bool) (responseBound : Bool) (optionsNonempty : Bool) :
    Name2ipResult :=
  if dnssec then
    if !responseBound then Name2ipResult.unboundLocal
    else if optionsNonempty then Name2ipResult.attributeError
    else Name2ipResult.noRecordFound
  else Name2ipResult.noRecordFound

/-- The retry loop of name2ip (lines 107-129), with the remaining attempt
budget as fuel and the index of the current attempt.  Returns the result
together with the number of query attempts performed. -/
def name2ipAux (dnssec : Bool) (oracle : Nat → QueryOutcome) :
    Nat → Nat → Name2ipResult × Nat
  | _, 0 => (name2ipFail dnssec false false, 0)
  | i, a + 1 =>
    match oracle i with
    | QueryOutcome.success recs opts =>
      if recs = [] then (name2ipFail dnssec true opts, 1)
      else (Name2ipResult.ok recs, 1)
    | QueryOutcome.otherErr => (name2ipFail dnssec false false, 1)
    | QueryOutcome.protoErr =>
      if a = 0 then (name2ipFail dnssec false false, 1)
      else
        let r := name2ipAux dnssec oracle (i + 1) a
        (r.1, r.2 + 1)

/-- name2ip (lines 104-139): the retry loop entered with attempts = 10. -/
def name2ip (dnssec : Bool) (oracle : Nat → QueryOutcome) : Name2ipResult × Nat :=
  name2ipAux dnssec oracle 0 10

/-! ## Fan-out query engine (dnsdiag.py, test_dns_query, lines 157-212)

Name resolution and the per-(type, address) queries are network effects,
modelled by oracles.  resolveF gives name2ip output for each nameserver
hostname (when a test runs to completion every call succeeded, so the
oracle returns the address list).  q gives, for a (query_type, address)
pair, either none (a DNSException was raised, caught on line 208) or the
answer section as a list of (rdtype-text, record-text) pairs. -/

/-- A test specification (config entry, consumed on lines 161-164). -/
structure TestSpec where
  name : String
  query_name : String
  query_types : List String
  nameservers : List String
  query_protocol : String
deriving DecidableEq

/-- Lines 165-173 and 185: nameservers_ips accumulates every address
returned for every nameserver hostname, and is then sorted in place.
There is no deduplication. -/
def fanoutIps (resolveF : String → List String) (nameservers : List String) :
    List String :=
  sortStrings (nameservers.flatMap resolveF)

/-- Lines 202-207: each resource record of a response is normalised to
"type-text record-text". -/
def rrNormalize (p : String × String) : String :=
  p.1 ++ " " ++ p.2

/-- Lines 191-209: the record-string list stored for one (type, address)
pair: empty when the query raised (the pair was initialised to [] on line
192 before the query), otherwise the normalised records. -/
def queryPair (q : String → String → Option (List (String × String)))
    (qt ip : String) : List String :=
  match q qt ip with
  | none => []
  | some rs => rs.map rrNormalize

/-- Lines 188-209: the per-type per-address answer table.  The inner Python
dict is keyed by address, so duplicate fan-out addresses collapse to one
key; the query oracle is a function, so every occurrence of an address is
assigned the same record list and the collapse loses nothing. -/
def fillAnswers (q : String → String → Option (List (String × String)))
    (query_types ips : List String) :
    List (String × List (String × List String)) :=
  query_types.map (fun qt => (qt, ips.dedup.map (fun ip => (ip, queryPair q qt ip))))

/-- Lookup of one (type, address) slot in the answer table. -/
def lookupSlot (table : List (String × List (String × List String)))
    (qt ip : String) : Option (List String) :=
  (table.lookup qt).bind (fun m => m.lookup ip)

/-! ## Consistency check (dnsdiag.py, test_dns_query, lines 215-237) -/

/-- The content of one inconsistency report (store_report call, lines
228-237): the report text names the query, the record type, the divergent
address and the reference address, and lists every expected entry and every
actual entry. -/
structure MismatchReport where
  query_name : String
  query_type : String
  ns_ip : String
  reference_ip : String
  expected : List String
  actual : List String
deriving DecidableEq

/-- Lines 215-237 for a single query type: when the per-type dict is empty
(no fan-out address at all, line 218) the type is skipped; otherwise the
list of the first fan-out address is the reference (line 223), every
address in the fan-out list is compared after sorting (lines 224-227), and
each failed comparison emits one report.  lists gives the per-address
record lists (the per-type dict). -/
def verifyType (query_name qt : String) (ips : List String)
    (lists : String → List String) : List MismatchReport :=
  match ips with
  | [] => []
  | ref :: rest =>
    (ref :: rest).filterMap (fun ip =>
      if sortStrings (lists ip) ≠ sortStrings (lists ref) then
        some ⟨query_name, qt, ip, ref, sortStrings (lists ref), sortStrings (lists ip)⟩
      else none)

/-- The whole verification pass (lines 215-237): one pass per query type. -/
def checkConsistency (query_name : String) (query_types ips : List String)
    (q : String → String → Option (List (String × String))) :
    List MismatchReport :=
  query_types.flatMap (fun qt => verifyType query_name qt ips (queryPair q qt))

/-! ## Answer snapshot and baseline diff (dnsdiag.py, lines 178-185, 244-269)

The answers structure is a Python dict holding the sorted nameserver names,
the sorted fan-out address list, and one per-address dict of record-string
lists for each query type.  Python dict equality ignores key order and the
construction order is deterministic, so the dict is modelled as a structure
with an association list for the per-type tables.  json.dump followed by
json.load is the identity on this shape (string keys, string/list values),
so baseline persistence stores snapshot values unchanged. -/

/-- The answers structure assembled on lines 178-209. -/
structure Snapshot where
  names : List String
  ips : List String
  records : List (String × List (String × List String))
deriving DecidableEq

/-- The in-place list sorting performed by the verification pass (lines
223-226): by the time the snapshot is persisted, every per-address record
list has been sorted. -/
def canonRecords (recs : List (String × List (String × List String))) :
    List (String × List (String × List String)) :=
  recs.map (fun p => (p.1, p.2.map (fun e => (e.1, sortStrings e.2))))

/-- A snapshot after the verification pass sorted all its record lists. -/
def canonicalize (s : Snapshot) : Snapshot :=
  { s with records := canonRecords s.records }

/-- Two snapshots that agree everywhere except possibly in the ordering of
the per-address record-string lists. -/
def listsPerm (a b : Snapshot) : Prop :=
  a.names = b.names ∧ a.ips = b.ips ∧
    List.Forall₂
      (fun p q : String × List (String × List String) =>
        p.1 = q.1 ∧
          List.Forall₂
            (fun u v : String × List String => u.1 = v.1 ∧ u.2.Perm v.2)
            p.2 q.2)
      a.records b.records

/-- The directory holding baseline files, as a map from filename to the
stored snapshot value. -/
def Store : Type :=
  String → Option Snapshot

/-- Line 246: the live baseline filename for a test name. -/
def liveName (testName : String) : String :=
  "dnsdiag-report-" ++ testName ++ ".json"

/-- Line 262: the archive filename, the live name with a run-timestamp
suffix. -/
def archiveName (testName ts : String) : String :=
  "dnsdiag-report-" ++ testName ++ "-" ++ ts ++ ".json"

/-- Writing a file (json.dump). -/
def fsWrite (fs : Store) (n : String) (v : Snapshot) : Store :=
  fun m => if m = n then some v else fs m

/-- os.rename: the destination receives the source content unchanged and the
source name disappears. -/
def fsRename (fs : Store) (src dst : String) : Store :=
  fun m => if m = dst then fs src else if m = src then none else fs m

/-- Result of the baseline stage: the directory afterwards, whether drift
was reported, and the drift report content (expected baseline, got
snapshot) when one was stored. -/
structure BaselineOutcome where
  fs : Store
  drift : Bool
  report : Option (Snapshot × Snapshot)

/-- Baseline diff stage of test_dns_query (lines 246-269).  When no live
baseline file exists the snapshot is written first (lines 248-250); the
live file is then read back and compared with the current snapshot (lines
254-256); on inequality a report is stored, the old file is renamed to the
archive name and the snapshot is written under the live name (lines
257-266). -/
def baselineStage (fs : Store) (testName ts : String) (answers : Snapshot) :
    BaselineOutcome :=
  let live := liveName testName
  let fs1 := match fs live with
    | none => fsWrite fs live answers
    | some _ => fs
  match fs1 live with
  | none => ⟨fs1, false, none⟩
  | some prev =>
    if prev = answers then ⟨fs1, false, none⟩
    else
      ⟨fsWrite (fsRename fs1 live (archiveName testName ts)) live answers,
        true, some (prev, answers)⟩

/-! ## Mutation of the test specification (dnsdiag.py, lines 163, 182-184)

Line 163 binds the local nameservers to the list object test['nameservers'];
line 182 stores that same object in the answers structure and line 184 sorts
it in place.  The effect on the caller's test object is that its
nameservers list is sorted; no other field is touched (query_types is only
iterated, nameservers_ips is a fresh list). -/

/-- The value of the test object after test_dns_query returns. -/
def testAfterRun (t : TestSpec) : TestSpec :=
  { t with nameservers := sortStrings t.nameservers }

/-! ## Theorems -/

/-- C1: resolver selection probes only the first resolver of the configured
list: a non-empty list selects its head exactly when the head passes the
probe and otherwise fails with the no-working-resolver error, independently
of the remaining resolvers; an empty list fails with the same error. -/
theorem c1_first_resolver_only (probe : Resolver → Bool) (r : Resolver)
    (rest : List Resolver) :
    (test_all_resolvers probe (r :: rest) =
      if probe r then Except.ok r else Except.error "No working resolver found") ∧
    test_all_resolvers probe ([] : List Resolver) =
      Except.error "No working resolver found" := by
  refine ⟨?_, rfl⟩
  by_cases h : probe r <;>
    simp [test_all_resolvers, forEachWithBreak, selectorBody, h]

/-- Helper for C4: when every attempt raises a protocol error, the retry
loop burns the whole budget and falls through to the failure path with the
response variable never assigned. -/
theorem name2ipAux_allProto (d : Bool) (oracle : Nat → QueryOutcome)
    (h : ∀ i, oracle i = QueryOutcome.protoErr) :
    ∀ a i, name2ipAux d oracle i (a + 1) = (name2ipFail d false false, a + 1) := by
  intro a
  induction a with
  | zero =>
    intro i
    simp [name2ipAux, h i]
  | succ b ih =>
    intro i
    have hstep : name2ipAux d oracle i (b + 1 + 1) =
        ((name2ipAux d oracle (i + 1) (b + 1)).1,
          (name2ipAux d oracle (i + 1) (b + 1)).2 + 1) := by
      rw [name2ipAux, h i]
      simp
    rw [hstep, ih (i + 1)]

/-- C4 (code bug): when every underlying query raises a protocol-level
error, name2ip performs exactly 10 attempts; with the DNSSEC flag off it
then raises the no-A-record error as the claim states, but with the DNSSEC
flag on the failure path reads the never-assigned local variable response
(line 134) and crashes instead of raising the no-A-record error. -/
theorem c4_retry_bound (oracle : Nat → QueryOutcome)
    (h : ∀ i, oracle i = QueryOutcome.protoErr) :
    name2ip false oracle = (Name2ipResult.noRecordFound, 10) ∧
    name2ip true oracle = (Name2ipResult.unboundLocal, 10) := by
  constructor <;> simpa [name2ip, name2ipFail] using name2ipAux_allProto _ oracle h 9 0

/-- Witness for C4 at the oracle that always raises a protocol error. -/
theorem c4_retry_bound_witness :
    name2ip false (fun _ => QueryOutcome.protoErr) = (Name2ipResult.noRecordFound, 10) ∧
    name2ip true (fun _ => QueryOutcome.protoErr) = (Name2ipResult.unboundLocal, 10) :=
  c4_retry_bound (fun _ => QueryOutcome.protoErr) (fun _ => rfl)

/-- Helper for C10: a successful attempt with an empty answer list ends the
loop at once, whatever budget remains, and enters the failure path with the
response bound and its EDNS options as received. -/
theorem name2ipAux_emptySuccess (d : Bool) (oracle : Nat → QueryOutcome) (opts : Bool) :
    ∀ k i a, k < a → (∀ j, j < k → oracle (i + j) = QueryOutcome.protoErr) →
      oracle (i + k) = QueryOutcome.success [] opts →
      name2ipAux d oracle i a = (name2ipFail d true opts, k + 1) := by
  intro k
  induction k with
  | zero =>
    intro i a ha _ hs
    match a, ha with
    | b + 1, _ =>
      have hi : oracle i = QueryOutcome.success [] opts := by simpa using hs
      simp [name2ipAux, hi]
  | succ m ih =>
    intro i a ha hp hs
    match a, ha with
    | b + 1, _ =>
      have hb : m < b := by omega
      have h0 : oracle i = QueryOutcome.protoErr := by
        simpa using hp 0 (Nat.succ_pos m)
      have hrec : name2ipAux d oracle (i + 1) b = (name2ipFail d true opts, m + 1) := by
        refine ih (i + 1) b hb ?_ ?_
        · intro j hj
          have := hp (j + 1) (by omega)
          simpa [Nat.add_assoc, Nat.add_comm 1 j] using this
        · have := hs
          rw [show i + (m + 1) = i + 1 + m by omega] at this
          exact this
      have hbne : b ≠ 0 := by omega
      simp [name2ipAux, h0, hbne, hrec]

/-- C10 (code bug): an attempt that succeeds with zero A records ends the
retry loop immediately — after k protocol-error attempts (k at most 9) an
empty successful answer stops name2ip at exactly k + 1 attempts, leaving
the rest of the budget unused, so retries follow only protocol errors as
the claim states — but the error raised then is the no-A-record error only
when the DNSSEC flag is off or the empty response carries no EDNS options;
with DNSSEC on and a non-empty options list, line 135 calls
response.options.to_text() on a plain list and crashes instead of reaching
the no-A-record raise on line 137. -/
theorem c10_empty_success_stops (dnssec opts : Bool) (oracle : Nat → QueryOutcome)
    (k : Nat) (hk : k ≤ 9) (hp : ∀ j, j < k → oracle j = QueryOutcome.protoErr)
    (hs : oracle k = QueryOutcome.success [] opts) :
    name2ip dnssec oracle =
      ((if dnssec && opts then Name2ipResult.attributeError
        else Name2ipResult.noRecordFound), k + 1) := by
  have h := name2ipAux_emptySuccess dnssec oracle opts k 0 10 (by omega)
    (fun j hj => by simpa using hp j hj) (by simpa using hs)
  rw [name2ip, h]
  cases dnssec <;> cases opts <;> rfl

/-- Witness for C10: an immediately successful but empty answer consumes one
attempt; without EDNS options (or without DNSSEC) the no-A-record error is
raised, while with DNSSEC and options present the crash path is taken. -/
theorem c10_empty_success_stops_witness :
    name2ip true (fun _ => QueryOutcome.success [] false) =
      (Name2ipResult.noRecordFound, 1) ∧
    name2ip false (fun _ => QueryOutcome.success [] true) =
      (Name2ipResult.noRecordFound, 1) ∧
    name2ip true (fun _ => QueryOutcome.success [] true) =
      (Name2ipResult.attributeError, 1) :=
  ⟨c10_empty_success_stops true false (fun _ => QueryOutcome.success [] false) 0
      (by omega) (fun j hj => absurd hj (Nat.not_lt_zero j)) rfl,
    c10_empty_success_stops false true (fun _ => QueryOutcome.success [] true) 0
      (by omega) (fun j hj => absurd hj (Nat.not_lt_zero j)) rfl,
    c10_empty_success_stops true true (fun _ => QueryOutcome.success [] true) 0
      (by omega) (fun j hj => absurd hj (Nat.not_lt_zero j)) rfl⟩

/-- C2 counterexample: two nameserver hostnames that resolve to the same
address leave a duplicate in the fan-out list; the accumulation on lines
169-173 is sorted (line 185) but never deduplicated. -/
theorem c2_fanout_duplicates :
    fanoutIps (fun _ => ["203.0.113.53"]) ["ns1.example.test", "ns2.example.test"] =
      ["203.0.113.53", "203.0.113.53"] ∧
    ¬ (fanoutIps (fun _ => ["203.0.113.53"])
        ["ns1.example.test", "ns2.example.test"]).Nodup := by
  have h : fanoutIps (fun _ => ["203.0.113.53"]) ["ns1.example.test", "ns2.example.test"] =
      ["203.0.113.53", "203.0.113.53"] := rfl
  refine ⟨h, ?_⟩
  rw [h]
  decide

/-- C2 amended: the fan-out target list run_test builds is in ascending
order, but it is a permutation of the concatenation of all resolved address
lists — duplicates are kept, not removed, when two nameserver hostnames
resolve to overlapping address lists. -/
theorem c2_fanout_sorted_not_dedup (resolveF : String → List String)
    (nameservers : List String) :
    List.Sorted strLeP (fanoutIps resolveF nameservers) ∧
    (fanoutIps resolveF nameservers).Perm (nameservers.flatMap resolveF) :=
  ⟨sortStrings_sorted _, sortStrings_perm _⟩

/-- C8 counterexample: a test whose nameservers list is not already sorted
is mutated by run_test — the snapshot aliases the list on line 182 and
sorts it in place on line 184. -/
theorem c8_test_is_mutated :
    testAfterRun
        ⟨"t1", "example.test", ["A"], ["ns-b.example.test", "ns-a.example.test"], "udp"⟩ ≠
      ⟨"t1", "example.test", ["A"], ["ns-b.example.test", "ns-a.example.test"], "udp"⟩ := by
  have h : testAfterRun
      ⟨"t1", "example.test", ["A"], ["ns-b.example.test", "ns-a.example.test"], "udp"⟩ =
      ⟨"t1", "example.test", ["A"], ["ns-a.example.test", "ns-b.example.test"], "udp"⟩ := rfl
  rw [h]
  decide

/-- C8 amended: run_test leaves the name, query domain, query types and
transport of the test object unchanged, but sorts its nameservers list in
place: afterwards that list is a sorted permutation of its prior value, so
it is unchanged exactly when it was already sorted. -/
theorem c8_fields_preserved_except_nameservers (t : TestSpec) :
    (testAfterRun t).name = t.name ∧
    (testAfterRun t).query_name = t.query_name ∧
    (testAfterRun t).query_types = t.query_types ∧
    (testAfterRun t).query_protocol = t.query_protocol ∧
    (testAfterRun t).nameservers.Perm t.nameservers ∧
    List.Sorted strLeP (testAfterRun t).nameservers :=
  ⟨rfl, rfl, rfl, rfl, sortStrings_perm _, sortStrings_sorted _⟩

/-- Looking up a key in an association list built by pairing each element of
a list with a function of it returns that function value. -/
theorem lookup_map_self {β : Type} (f : String → β) :
    ∀ (l : List String) (x : String), x ∈ l →
      List.lookup x (l.map fun y => (y, f y)) = some (f x) := by
  intro l
  induction l with
  | nil => intro x hx; cases hx
  | cons b bs ih =>
    intro x hx
    by_cases hxb : x = b
    · subst hxb
      simp [List.lookup]
    · have hxbs : x ∈ bs := by
        rcases List.mem_cons.mp hx with h | h
        · exact absurd h hxb
        · exact h
      have hbeq : (x == b) = false := beq_eq_false_iff_ne.mpr hxb
      simp [List.lookup, hbeq, ih x hxbs]

/-- C9: a protocol-level error on one (record type, address) pair is
absorbed locally: that slot of the answer table is the empty list, while
every (type, address) pair of the test — the erroring one included — has a
slot holding exactly its queried record list, so no pair is skipped and the
test is not aborted. -/
theorem c9_protocol_error_absorbed
    (q : String → String → Option (List (String × String)))
    (query_types ips : List String) (qt0 ip0 : String)
    (hqt : qt0 ∈ query_types) (hip : ip0 ∈ ips) (herr : q qt0 ip0 = none) :
    lookupSlot (fillAnswers q query_types ips) qt0 ip0 = some [] ∧
    ∀ qt ip, qt ∈ query_types → ip ∈ ips →
      lookupSlot (fillAnswers q query_types ips) qt ip = some (queryPair q qt ip) := by
  have hmain : ∀ qt ip, qt ∈ query_types → ip ∈ ips →
      lookupSlot (fillAnswers q query_types ips) qt ip = some (queryPair q qt ip) := by
    intro qt ip h1 h2
    unfold lookupSlot fillAnswers
    rw [lookup_map_self _ query_types qt h1]
    simp only [Option.some_bind]
    rw [lookup_map_self _ ips.dedup ip (List.mem_dedup.mpr h2)]
  refine ⟨?_, hmain⟩
  rw [hmain qt0 ip0 hqt hip]
  simp [queryPair, herr]

/-- Witness for C9: with one address erroring and another answering, the
erroring slot is empty. -/
theorem c9_protocol_error_absorbed_witness :
    lookupSlot
      (fillAnswers
        (fun _ ip => if ip = "198.51.100.1" then none else some [("A", "198.51.100.9")])
        ["A"] ["198.51.100.1", "198.51.100.2"])
      "A" "198.51.100.1" = some [] :=
  (c9_protocol_error_absorbed
    (fun _ ip => if ip = "198.51.100.1" then none else some [("A", "198.51.100.9")])
    ["A"] ["198.51.100.1", "198.51.100.2"] "A" "198.51.100.1"
    (by simp) (by simp) (by simp)).1

/-- C3 counterexample: a snapshot whose fan-out list holds a duplicated
address (reachable, since the fan-out list is not deduplicated) makes the
verification loop of lines 224-237 emit one report per occurrence: the
divergent address 198.51.100.2 appears twice, so two reports name it, not
exactly one. -/
theorem c3_duplicate_address_two_reports :
    (verifyType "example.test" "A" ["198.51.100.1", "198.51.100.2", "198.51.100.2"]
        (fun ip => if ip = "198.51.100.1" then ["A 198.51.100.9"] else ["A 203.0.113.9"])).countP
      (fun r => r.ns_ip == "198.51.100.2") = 2 := by
  rfl

/-- Helper for C3: counting, in the reports a single verification pass
emits, those that name a given address. -/
theorem countP_verify_reports (qn qt ref ip : String) (lists : String → List String) :
    ∀ l : List String,
      (l.filterMap (fun x =>
        if sortStrings (lists x) ≠ sortStrings (lists ref) then
          some (⟨qn, qt, x, ref, sortStrings (lists ref), sortStrings (lists x)⟩ :
            MismatchReport)
        else none)).countP (fun r => r.ns_ip == ip) =
      if sortStrings (lists ip) ≠ sortStrings (lists ref) then l.count ip else 0 := by
  intro l
  induction l with
  | nil => simp
  | cons x l ih =>
    rw [List.filterMap_cons]
    by_cases hcond : sortStrings (lists x) ≠ sortStrings (lists ref)
    · rw [if_pos hcond, List.countP_cons]
      by_cases hxi : x = ip
      · subst hxi
        rw [ih, if_pos hcond, List.count_cons_self]
        simp [hcond]
      · have hbeq : (x == ip) = false := beq_eq_false_iff_ne.mpr hxi
        rw [ih]
        simp [hbeq, List.count_cons, hxi]
    · rw [if_neg hcond]
      by_cases hxi : x = ip
      · subst hxi
        rw [ih, if_neg hcond, if_neg hcond]
      · rw [ih]
        by_cases hip : sortStrings (lists ip) ≠ sortStrings (lists ref)
        · rw [if_pos hip, if_pos hip, List.count_cons]
          have hbeq : (ip == x) = false := beq_eq_false_iff_ne.mpr (Ne.symm hxi)
          simp [hbeq, hxi]
        · rw [if_neg hip, if_neg hip]

/-- Helper for C3: every report a single verification pass emits carries
the full sorted reference list as expected, the full sorted list of the
named address as actual, and the two differ. -/
theorem mem_verify_reports (qn qt ref : String) (lists : String → List String)
    (l : List String) (r : MismatchReport)
    (hr : r ∈ l.filterMap (fun x =>
      if sortStrings (lists x) ≠ sortStrings (lists ref) then
        some (⟨qn, qt, x, ref, sortStrings (lists ref), sortStrings (lists x)⟩ :
          MismatchReport)
      else none)) :
    r.query_name = qn ∧ r.query_type = qt ∧ r.reference_ip = ref ∧
    r.expected = sortStrings (lists ref) ∧ r.actual = sortStrings (lists r.ns_ip) ∧
    r.actual ≠ r.expected := by
  rcases List.mem_filterMap.mp hr with ⟨x, _, hfx⟩
  by_cases hcond : sortStrings (lists x) ≠ sortStrings (lists ref)
  · rw [if_pos hcond] at hfx
    cases hfx
    exact ⟨rfl, rfl, rfl, rfl, rfl, hcond⟩
  · rw [if_neg hcond] at hfx
    cases hfx

/-- C3 amended: with the fan-out list ref :: rest (so ref, its first and
lexicographically smallest entry, is the reference), the verification pass
emits, for each address whose sorted record list differs from the sorted
reference list, exactly one report per occurrence of that address in the
fan-out list — exactly one per address only when the fan-out list is
duplicate-free — and no report for agreeing addresses; every report names
the query, the type, the divergent address and the reference, and carries
the full sorted expected (reference) and actual lists, which differ. -/
theorem c3_one_report_per_occurrence (qn qt ref : String) (rest : List String)
    (lists : String → List String) :
    (∀ ip : String,
      (verifyType qn qt (ref :: rest) lists).countP (fun r => r.ns_ip == ip) =
        if sortStrings (lists ip) ≠ sortStrings (lists ref) then
          (ref :: rest).count ip
        else 0) ∧
    ∀ r ∈ verifyType qn qt (ref :: rest) lists,
      r.query_name = qn ∧ r.query_type = qt ∧ r.reference_ip = ref ∧
      r.expected = sortStrings (lists ref) ∧ r.actual = sortStrings (lists r.ns_ip) ∧
      r.actual ≠ r.expected := by
  constructor
  · intro ip
    exact countP_verify_reports qn qt ref ip lists (ref :: rest)
  · intro r hr
    exact mem_verify_reports qn qt ref lists (ref :: rest) r hr

/-- Witness for C3 on a duplicate-free fan-out list: the single divergent
address receives exactly one report. -/
theorem c3_one_report_per_occurrence_witness :
    (verifyType "example.test" "A" ["198.51.100.1", "198.51.100.2"]
        (fun ip => if ip = "198.51.100.1" then ["A 198.51.100.9"] else ["A 203.0.113.9"])).countP
      (fun r => r.ns_ip == "198.51.100.2") = 1 :=
  ((c3_one_report_per_occurrence "example.test" "A" "198.51.100.1" ["198.51.100.2"]
      (fun ip => if ip = "198.51.100.1" then ["A 198.51.100.9"] else ["A 203.0.113.9"])).1
    "198.51.100.2").trans (by decide)

/-- C5: when no baseline file exists for the test name, the baseline stage
persists the current snapshot as the new baseline, reports no drift and
stores no mismatch report. -/
theorem c5_first_run_establishes_baseline (fs : Store) (testName ts : String)
    (snap : Snapshot) (h : fs (liveName testName) = none) :
    baselineStage fs testName ts snap =
      ⟨fsWrite fs (liveName testName) snap, false, none⟩ := by
  simp only [baselineStage, h]
  simp [fsWrite]

/-- Concrete snapshot used by the baseline witnesses. -/
def snapA : Snapshot :=
  ⟨["ns1.example.test"], ["198.51.100.1"],
    [("A", [("198.51.100.1", ["A 198.51.100.9"])])]⟩

/-- A second concrete snapshot, differing from snapA in one record. -/
def snapB : Snapshot :=
  ⟨["ns1.example.test"], ["198.51.100.1"],
    [("A", [("198.51.100.1", ["A 203.0.113.9"])])]⟩

/-- A concrete snapshot whose only record list is not sorted. -/
def snapRaw : Snapshot :=
  ⟨["ns1.example.test"], ["198.51.100.1"],
    [("A", [("198.51.100.1", ["A 203.0.113.9", "A 198.51.100.9"])])]⟩

/-- Witness for C5 on an empty baseline directory. -/
theorem c5_first_run_establishes_baseline_witness :
    baselineStage (fun _ => none) "t1" "20251012-000000" snapA =
      ⟨fsWrite (fun _ => none) (liveName "t1") snapA, false, none⟩ :=
  c5_first_run_establishes_baseline (fun _ => none) "t1" "20251012-000000" snapA rfl

/-- Helper for C6: sorting each record list of a per-address table is
unaffected by reordering within the lists. -/
theorem innerMap_eq_of_perm {m1 m2 : List (String × List String)}
    (h : List.Forall₂ (fun u v => u.1 = v.1 ∧ u.2.Perm v.2) m1 m2) :
    m1.map (fun e => (e.1, sortStrings e.2)) = m2.map (fun e => (e.1, sortStrings e.2)) := by
  induction h with
  | nil => rfl
  | cons ha _ ih =>
    simp only [List.map_cons, ih]
    rw [ha.1, sortStrings_eq_of_perm ha.2]

/-- Helper for C6: canonRecords is unaffected by reordering within the
record lists. -/
theorem canonRecords_eq_of_perm
    {r1 r2 : List (String × List (String × List String))}
    (h : List.Forall₂
      (fun p q => p.1 = q.1 ∧
        List.Forall₂ (fun u v => u.1 = v.1 ∧ u.2.Perm v.2) p.2 q.2)
      r1 r2) :
    canonRecords r1 = canonRecords r2 := by
  induction h with
  | nil => rfl
  | cons ha _ ih =>
    simp only [canonRecords, List.map_cons] at ih ⊢
    rw [ih, ha.1, innerMap_eq_of_perm ha.2]

/-- Helper for C6: snapshots equal up to record-list ordering canonicalize
to the same snapshot. -/
theorem canonicalize_eq_of_listsPerm {a b : Snapshot} (h : listsPerm a b) :
    canonicalize a = canonicalize b := by
  obtain ⟨hn, hi, hrec⟩ := h
  cases a
  cases b
  simp only [canonicalize] at hn hi hrec ⊢
  rw [hn, hi, canonRecords_eq_of_perm hrec]

/-- Helper for C6: sorting the record lists of a per-address table twice is
the same as sorting them once. -/
theorem innerMap_idem : ∀ m : List (String × List String),
    ((m.map (fun e => (e.1, sortStrings e.2))).map (fun e => (e.1, sortStrings e.2))) =
      m.map (fun e => (e.1, sortStrings e.2))
  | [] => rfl
  | e :: m => by
    simp only [List.map_cons, innerMap_idem m, sortStrings_idem]

/-- Helper for C6: canonRecords is idempotent. -/
theorem canonRecords_idem : ∀ recs, canonRecords (canonRecords recs) = canonRecords recs
  | [] => rfl
  | ⟨k, m⟩ :: recs => by
    have ih := canonRecords_idem recs
    simp only [canonRecords, List.map_cons] at ih ⊢
    rw [innerMap_idem m, ih]

/-- Helper for C6: canonicalize is idempotent. -/
theorem canonicalize_idem (s : Snapshot) :
    canonicalize (canonicalize s) = canonicalize s := by
  cases s
  simp only [canonicalize]
  rw [canonRecords_idem]

/-- C6: if the stored baseline is the canonical form of an earlier snapshot
and the current snapshot differs from that stored baseline only in the
ordering of its per-address record lists, then the baseline stage — which
compares after the verification pass sorted every record list — reports no
drift, stores no report and leaves the directory unchanged. -/
theorem c6_order_independent_no_drift (fs : Store) (testName ts : String)
    (b0 a : Snapshot) (hstored : fs (liveName testName) = some (canonicalize b0))
    (hperm : listsPerm a (canonicalize b0)) :
    baselineStage fs testName ts (canonicalize a) = ⟨fs, false, none⟩ := by
  have hEq : canonicalize a = canonicalize b0 := by
    rw [canonicalize_eq_of_listsPerm hperm, canonicalize_idem]
  simp only [baselineStage, hstored, hEq]
  simp

/-- Witness for C6: the stored canonical baseline against a raw snapshot
whose record list is the same set in reversed order. -/
theorem c6_order_independent_no_drift_witness :
    baselineStage
      (fun n => if n = liveName "t1" then some (canonicalize snapRaw) else none)
      "t1" "20251012-000000" (canonicalize snapRaw) =
      ⟨(fun n => if n = liveName "t1" then some (canonicalize snapRaw) else none),
        false, none⟩ :=
  c6_order_independent_no_drift
    (fun n => if n = liveName "t1" then some (canonicalize snapRaw) else none)
    "t1" "20251012-000000" snapRaw snapRaw (by simp)
    ⟨rfl, rfl,
      List.Forall₂.cons
        ⟨rfl, List.Forall₂.cons
          ⟨rfl, by decide⟩
          List.Forall₂.nil⟩
        List.Forall₂.nil⟩

/-- Helper for C7: the archive filename never collides with the live
baseline filename. -/
theorem archiveName_ne_liveName (testName ts : String) :
    archiveName testName ts ≠ liveName testName := by
  intro h
  have hl := congrArg String.length h
  rw [archiveName, liveName] at hl
  simp only [String.length_append] at hl
  have h1 : ("-" : String).length = 1 := rfl
  rw [h1] at hl
  omega

/-- C7: a baseline update that detects drift reports the drift with the
full prior baseline as expected and the snapshot as got, keeps the prior
baseline content unchanged under the archive name (live name plus run
timestamp), and writes the snapshot under the live name. -/
theorem c7_archival_non_loss (fs : Store) (testName ts : String)
    (prev snap : Snapshot) (hstored : fs (liveName testName) = some prev)
    (hne : prev ≠ snap) :
    (baselineStage fs testName ts snap).drift = true ∧
    (baselineStage fs testName ts snap).report = some (prev, snap) ∧
    (baselineStage fs testName ts snap).fs (archiveName testName ts) = some prev ∧
    (baselineStage fs testName ts snap).fs (liveName testName) = some snap := by
  simp only [baselineStage, hstored, if_neg hne]
  refine ⟨trivial, trivial, ?_, ?_⟩
  · simp [fsWrite, fsRename, archiveName_ne_liveName testName ts, hstored]
  · simp [fsWrite]

/-- Witness for C7 on a one-file directory with a drifting snapshot. -/
theorem c7_archival_non_loss_witness :
    ((baselineStage (fun n => if n = liveName "t1" then some snapA else none)
        "t1" "20251012-010101" snapB).drift = true) ∧
    ((baselineStage (fun n => if n = liveName "t1" then some snapA else none)
        "t1" "20251012-010101" snapB).report = some (snapA, snapB)) ∧
    ((baselineStage (fun n => if n = liveName "t1" then some snapA else none)
        "t1" "20251012-010101" snapB).fs (archiveName "t1" "20251012-010101") =
      some snapA) ∧
    ((baselineStage (fun n => if n = liveName "t1" then some snapA else none)
        "t1" "20251012-010101" snapB).fs (liveName "t1") = some snapB) :=
  c7_archival_non_loss (fun n => if n = liveName "t1" then some snapA else none)
    "t1" "20251012-010101" snapA snapB (by simp) (by decide)

end DnsDiag
